import Mathlib

/-!
# Dual-core RP2040 weather station (`main.c`)

Shallow embedding of the consumer side of `main.c` (core 1: frame reception,
history ring buffer, alarm evaluation, button handling) and of the producer's
frame serialisation (core 0), followed by theorems about them.

Conventions of the embedding.

* A C `float` is held as its binary32 bit pattern, a natural number below
  `2 ^ 32`.  `memcpy` moves these bit patterns unchanged.  Arithmetic and
  comparison on floats are primitives of the target, not of `main.c`; every
  function that uses them takes a `FloatOps` record, which also gives the number
  of characters `sprintf` produces for a float.  `F32.ieee` is a reference
  instance (IEC 60559 binary32, round to nearest even) used for concrete
  evaluations.
* `uint32_t` values are naturals, subtraction is taken modulo `2 ^ 32`.
* `int` values are integers; `%` is C's truncating remainder `Int.tmod`.
* A function whose C body may access memory outside an array returns `Option`
  (`none`: the access is out of bounds); this includes `sprintf` into the
  32-byte buffer `str` of `update_display`.  The receive step also returns `none`
  when `multicore_fifo_pop_blocking` would wait for a word that is not queued.
* Calls that drive pins or the display are recorded as a list of `HwEvent`.
-/

namespace DualCore

/-! ## Float primitives -/

/-- Primitive operations on C `float` values (bit patterns): `a + b`, `a / b`,
`a < b`, the conversion of an `int` to `float`, and `fmt_len prec x`, the
number of characters `sprintf` produces for `x` under the conversion `%.<prec>f`. -/
structure FloatOps where
  add : Nat → Nat → Nat
  div : Nat → Nat → Nat
  lt : Nat → Nat → Bool
  ofInt : Int → Nat
  fmt_len : Nat → Nat → Nat

/-- Number of decimal digits of `n`, by dividing by ten at most `fuel` times. -/
def declenAux : Nat → Nat → Nat
  | 0, _ => 1
  | fuel + 1, n => if n < 10 then 1 else declenAux fuel (n / 10) + 1

def declen (n : Nat) : Nat := declenAux n n

/-- Number of characters `sprintf` produces for an `int` under `%d`. -/
def int_len (i : Int) : Nat := (if i < 0 then 1 else 0) + declen i.natAbs

namespace F32

/-- Sign bit of a binary32 pattern. -/
def sign (b : Nat) : Nat := b / 2 ^ 31 % 2

/-- Biased exponent field of a binary32 pattern. -/
def expo (b : Nat) : Nat := b / 2 ^ 23 % 256

/-- Fraction field of a binary32 pattern. -/
def frac (b : Nat) : Nat := b % 2 ^ 23

def isNaN (b : Nat) : Bool := expo b == 255 && frac b != 0

def isInf (b : Nat) : Bool := expo b == 255 && frac b == 0

/-- Magnitude of a pattern in units of `2 ^ (-149)` (the least subnormal).
An infinity gets `2 ^ 277`, above every finite magnitude. -/
def mag (b : Nat) : Nat :=
  if expo b = 0 then frac b else (2 ^ 23 + frac b) * 2 ^ (expo b - 1)

/-- Signed value of a pattern in units of `2 ^ (-149)`. -/
def val (b : Nat) : Int := if sign b = 1 then -(mag b : Int) else (mag b : Int)

/-- Number of binary digits of `n`, by halving at most `fuel` times. -/
def bitlenAux : Nat → Nat → Nat
  | 0, _ => 0
  | fuel + 1, n => if n = 0 then 0 else bitlenAux fuel (n / 2) + 1

def bitlen (n : Nat) : Nat := bitlenAux n n

def qNaN : Nat := 0x7FC00000

def inf : Nat := 0x7F800000

/-- Magnitude bits (exponent and fraction fields) of the binary32 value nearest
to `num / den` units of `2 ^ (-149)`, ties to even, overflow to infinity. -/
def round (num den : Nat) : Nat :=
  let k := bitlen (num / den) - 24
  let d := den * 2 ^ k
  let q := num / d
  let r := num % d
  let q1 := if d < 2 * r ∨ (2 * r = d ∧ q % 2 = 1) then q + 1 else q
  let bits := k * 2 ^ 23 + q1
  if inf ≤ bits then inf else bits

def pack (s m : Nat) : Nat := s * 2 ^ 31 + m

def add (a b : Nat) : Nat :=
  if isNaN a || isNaN b then qNaN
  else if isInf a && isInf b then (if sign a = sign b then a % 2 ^ 32 else qNaN)
  else if isInf a then a % 2 ^ 32
  else if isInf b then b % 2 ^ 32
  else
    let z := val a + val b
    if z = 0 then (if sign a = 1 ∧ sign b = 1 then pack 1 0 else 0)
    else pack (if z < 0 then 1 else 0) (round z.natAbs 1)

def div (a b : Nat) : Nat :=
  let s := (sign a + sign b) % 2
  if isNaN a || isNaN b then qNaN
  else if isInf a then (if isInf b then qNaN else pack s inf)
  else if isInf b then pack s 0
  else if mag b = 0 then (if mag a = 0 then qNaN else pack s inf)
  else pack s (round (mag a * 2 ^ 149) (mag b))

def lt (a b : Nat) : Bool := !isNaN a && !isNaN b && decide (val a < val b)

def ofInt (i : Int) : Nat :=
  pack (if i < 0 then 1 else 0) (round (i.natAbs * 2 ^ 149) 1)

/-- Length of the text of `%.<prec>f`: an optional minus sign, then `nan` or
`inf`, or the digits of the value rounded to `prec` decimals (ties to even),
with a point and `prec` decimals when `prec` is not 0. -/
def fmt_len (prec b : Nat) : Nat :=
  if isNaN b || isInf b then sign b + 3
  else
    let num := mag b * 10 ^ prec
    let den := 2 ^ 149
    let q := num / den
    let r := num % den
    let n := if den < 2 * r ∨ (2 * r = den ∧ q % 2 = 1) then q + 1 else q
    sign b + declen (n / 10 ^ prec) + (if prec = 0 then 0 else prec + 1)

/-- Reference float arithmetic: IEC 60559 binary32, round to nearest even. -/
def ieee : FloatOps := ⟨add, div, lt, ofInt, fmt_len⟩

end F32

/-! ## Configuration constants -/

def BOTAO_A : Nat := 5
def BUZZER_PIN : Nat := 21
def RED_PIN : Nat := 13
def BLUE_PIN : Nat := 12
def GREEN_PIN : Nat := 11
def MAX_DATA_POINTS : Nat := 50
def DEBOUNCE_DELAY_MS : Nat := 200

/-- The framing marker pushed before every message. -/
def MARKER : Nat := 0xAAAAAAAA

/-- Difference of two `uint32_t` values. -/
def sub32 (a b : Nat) : Nat := (a + 2 ^ 32 - b % 2 ^ 32) % 2 ^ 32

/-! ## Data structures -/

structure SensorData where
  temperature : Nat
  humidity : Nat
  pressure : Nat
  altitude : Nat
  timestamp : Nat
deriving DecidableEq

structure Config where
  temp_min : Nat
  temp_max : Nat
  humid_min : Nat
  humid_max : Nat
  press_min : Nat
  press_max : Nat
  temp_offset : Nat
  humid_offset : Nat
  press_offset : Nat
deriving DecidableEq

structure HistoricalData where
  temperature : List Nat
  humidity : List Nat
  pressure : List Nat
  index : Int
  count : Int
deriving DecidableEq

/-- The initialiser of the global `config`: the literals 10.0, 35.0, 20.0, 80.0,
900.0, 1100.0 and 0.0 converted to `float`. -/
def config : Config :=
  { temp_min := 0x41200000, temp_max := 0x420C0000,
    humid_min := 0x41A00000, humid_max := 0x42A00000,
    press_min := 0x44610000, press_max := 0x44898000,
    temp_offset := 0, humid_offset := 0, press_offset := 0 }

/-- The global `history = {0}`. -/
def history : HistoricalData :=
  { temperature := List.replicate MAX_DATA_POINTS 0,
    humidity := List.replicate MAX_DATA_POINTS 0,
    pressure := List.replicate MAX_DATA_POINTS 0,
    index := 0, count := 0 }

/-- Every field is a 32-bit pattern. -/
def SensorData.wf (s : SensorData) : Prop :=
  s.temperature < 2 ^ 32 ∧ s.humidity < 2 ^ 32 ∧ s.pressure < 2 ^ 32 ∧
    s.altitude < 2 ^ 32 ∧ s.timestamp < 2 ^ 32

instance (s : SensorData) : Decidable s.wf := by
  unfold SensorData.wf; infer_instance

/-! ## Frame serialisation (`core0_sensor_task`, `core1_interface_task`) -/

/-- The value of `sizeof(SensorData)`: five 4-byte members, no padding. -/
def sizeof_SensorData : Nat := 20

/-- The value of `num_words = (sizeof(SensorData) + 3) / 4`. -/
def num_words : Nat := (sizeof_SensorData + 3) / 4

/-- The four bytes of a 32-bit object, lowest address first (little endian). -/
def le_bytes (w : Nat) : List Nat :=
  [w % 256, w / 256 % 256, w / 65536 % 256, w / 16777216 % 256]

/-- The 32-bit object stored at byte offset `4 * i` of `mem`. -/
def word_at (mem : List Nat) (i : Nat) : Nat :=
  mem.getD (4 * i) 0 + 256 * mem.getD (4 * i + 1) 0 + 65536 * mem.getD (4 * i + 2) 0
    + 16777216 * mem.getD (4 * i + 3) 0

/-- Object representation of a `SensorData`. -/
def SensorData.bytes (s : SensorData) : List Nat :=
  le_bytes s.temperature ++ le_bytes s.humidity ++ le_bytes s.pressure
    ++ le_bytes s.altitude ++ le_bytes s.timestamp

/-- The `SensorData` whose object representation starts `mem`. -/
def SensorData.ofBytes (mem : List Nat) : SensorData :=
  { temperature := word_at mem 0, humidity := word_at mem 1, pressure := word_at mem 2,
    altitude := word_at mem 3, timestamp := word_at mem 4 }

/-- Result of `memcpy(dst, src, n)` on the bytes of `dst`. -/
def memcpy (dst src : List Nat) (n : Nat) : List Nat := src.take n ++ dst.drop n

/-- Result of `memset(p, 0, n)`: `n` zero bytes. -/
def memset0 (n : Nat) : List Nat := List.replicate n 0

/-- Lines 228-233 of `core0_sensor_task`: the array `words` after
`memset(words, 0, sizeof(words)); memcpy(words, &data, sizeof(SensorData))`. -/
def serialize (data : SensorData) : List Nat :=
  let mem := memcpy (memset0 (4 * num_words)) data.bytes sizeof_SensorData
  (List.range num_words).map (word_at mem)

/-- Lines 283-284 of `core1_interface_task`: `current_sensor_data` after
`memset(&current_sensor_data, 0, sizeof(SensorData));
memcpy(&current_sensor_data, data_buffer, sizeof(SensorData))`. -/
def deserialize (data_buffer : List Nat) : SensorData :=
  SensorData.ofBytes
    (memcpy (memset0 sizeof_SensorData) (data_buffer.flatMap le_bytes) sizeof_SensorData)

/-- Lines 234-237 of `core0_sensor_task`: the marker, then the words, are pushed
into the inter-core FIFO. -/
def core0_send (fifo : List Nat) (data : SensorData) : List Nat :=
  fifo ++ MARKER :: serialize data

/-! ## Hardware control (`set_rgb_led`, `buzzer_beep`) and the display -/

/-- What `update_display` renders: the numbers handed to `sprintf` on each page.
The text layout and the glyph drawing belong to the display driver. -/
inductive Screen
  | principal (temperature humidity pressure altitude : Nat)
  | limites (temp_min temp_max humid_min humid_max press_min press_max : Nat)
  | historico (count : Int) (avg : Option (Nat × Nat))
  | blank
deriving DecidableEq

inductive HwEvent
  | gpio_put (pin value : Nat)
  | sleep_ms (ms : Int)
  | display (screen : Screen)
deriving DecidableEq

def set_rgb_led (r g b : Nat) : List HwEvent :=
  [HwEvent.gpio_put RED_PIN r, HwEvent.gpio_put GREEN_PIN g, HwEvent.gpio_put BLUE_PIN b]

def buzzer_beep (duration_ms : Int) : List HwEvent :=
  if 0 < duration_ms ∧ duration_ms < 1000 then
    [HwEvent.gpio_put BUZZER_PIN 1, HwEvent.sleep_ms duration_ms, HwEvent.gpio_put BUZZER_PIN 0]
  else []

/-! ## State of core 1 -/

/-- The globals read and written on core 1, the `static` locals of
`check_alarms`, the locals of `core1_interface_task` that live across loop
iterations, and the words queued in the inter-core FIFO. -/
structure Core1State where
  config : Config
  history : HistoricalData
  current_page : Int
  alarm_active : Bool
  button_a_pressed : Bool
  last_button_time : Nat
  current_sensor_data : SensorData
  led_state : Bool
  last_toggle : Nat
  last_display_update : Nat
  data_received : Bool
  fifo : List Nat
deriving DecidableEq

/-- The state when `core1_interface_task` enters its loop. -/
def core1_init : Core1State :=
  { config := config, history := history, current_page := 0, alarm_active := false,
    button_a_pressed := false, last_button_time := 0,
    current_sensor_data := ⟨0, 0, 0, 0, 0⟩, led_state := false, last_toggle := 0,
    last_display_update := 0, data_received := false, fifo := [] }

/-! ## `add_to_history` -/

def add_to_history (h : HistoricalData) (temp humid press : Nat) : Option HistoricalData :=
  if 0 ≤ h.index ∧ h.index < MAX_DATA_POINTS then
    some
      { temperature := h.temperature.set h.index.toNat temp,
        humidity := h.humidity.set h.index.toNat humid,
        pressure := h.pressure.set h.index.toNat press,
        index := (h.index + 1).tmod MAX_DATA_POINTS,
        count := if h.count < MAX_DATA_POINTS then h.count + 1 else h.count }
  else none

/-- Consecutive calls of `add_to_history`, one per triple, in list order. -/
def push_all (h : HistoricalData) : List (Nat × Nat × Nat) → Option HistoricalData
  | [] => some h
  | x :: xs =>
    match add_to_history h x.1 x.2.1 x.2.2 with
    | some h1 => push_all h1 xs
    | none => none

/-- The ring buffer is well formed: three arrays of `MAX_DATA_POINTS` floats, the
write index inside them, the count between 0 and `MAX_DATA_POINTS`. -/
def HistoricalData.wf (h : HistoricalData) : Prop :=
  h.temperature.length = MAX_DATA_POINTS ∧ h.humidity.length = MAX_DATA_POINTS ∧
    h.pressure.length = MAX_DATA_POINTS ∧ 0 ≤ h.index ∧ h.index < MAX_DATA_POINTS ∧
    0 ≤ h.count ∧ h.count ≤ MAX_DATA_POINTS

instance (h : HistoricalData) : Decidable h.wf := by
  unfold HistoricalData.wf; infer_instance

/-- The triple stored in slot `s` of the three arrays. -/
def HistoricalData.entry (h : HistoricalData) (s : Nat) : Option (Nat × Nat × Nat) :=
  match h.temperature[s]?, h.humidity[s]?, h.pressure[s]? with
  | some t, some u, some p => some (t, u, p)
  | _, _, _ => none

/-! ## `update_display` -/

/-- The accumulators `avg_temp`, `avg_humid` of the history page after the first
`n` iterations of `for (i = 0; i < history.count; i++)`; `none` when an
iteration reads outside the arrays. -/
def avg_loop (ops : FloatOps) (h : HistoricalData) : Nat → Option (Nat × Nat)
  | 0 => some (ops.ofInt 0, ops.ofInt 0)
  | i + 1 =>
    match avg_loop ops h i, h.temperature[i]?, h.humidity[i]? with
    | some (avg_temp, avg_humid), some t, some u => some (ops.add avg_temp t, ops.add avg_humid u)
    | _, _, _ => none

/-- Lines 415-422: the averages shown on the history page.  `some none`: the
guard `history.count > 0` is false and nothing is computed; `none`: a read
outside the arrays. -/
def history_average (ops : FloatOps) (h : HistoricalData) : Option (Option (Nat × Nat)) :=
  if 0 < h.count then
    match avg_loop ops h h.count.toNat with
    | some (avg_temp, avg_humid) =>
      some (some (ops.div avg_temp (ops.ofInt h.count), ops.div avg_humid (ops.ofInt h.count)))
    | none => none
  else some none

/-- The size of `char str[32]` in `update_display`. -/
def STR_SIZE : Nat := 32

/-- A `sprintf(str, ...)` that produces `len` characters stays inside `str`:
the characters and the terminating NUL take `len + 1` bytes. -/
def sprintf_fits (len : Nat) : Bool := decide (len + 1 ≤ STR_SIZE)

/-- The body of `update_display`.  Each `sprintf` into `str` is checked against
the buffer size with the length of its text: the literal characters of the
format plus the lengths of the converted numbers.  `none`: a `sprintf` writes
past `str`, or the history page reads outside the arrays. -/
def update_display (ops : FloatOps) (st : Core1State) : Option (List HwEvent) :=
  if st.current_page = 0 then
    if sprintf_fits (3 + ops.fmt_len 1 st.current_sensor_data.temperature + 1) &&
        sprintf_fits (3 + ops.fmt_len 1 st.current_sensor_data.humidity + 1) &&
        sprintf_fits (3 + ops.fmt_len 0 st.current_sensor_data.pressure + 3) &&
        sprintf_fits (5 + ops.fmt_len 0 st.current_sensor_data.altitude + 1) then
      some [HwEvent.display (Screen.principal st.current_sensor_data.temperature
        st.current_sensor_data.humidity st.current_sensor_data.pressure
        st.current_sensor_data.altitude)]
    else none
  else if st.current_page = 1 then
    if sprintf_fits (2 + ops.fmt_len 0 st.config.temp_min + 1
          + ops.fmt_len 0 st.config.temp_max + 1) &&
        sprintf_fits (2 + ops.fmt_len 0 st.config.humid_min + 1
          + ops.fmt_len 0 st.config.humid_max + 1) &&
        sprintf_fits (2 + ops.fmt_len 0 st.config.press_min + 1
          + ops.fmt_len 0 st.config.press_max) then
      some [HwEvent.display (Screen.limites st.config.temp_min st.config.temp_max
        st.config.humid_min st.config.humid_max st.config.press_min st.config.press_max)]
    else none
  else if st.current_page = 2 then
    if sprintf_fits (8 + int_len st.history.count + 1 + int_len MAX_DATA_POINTS) then
      match history_average ops st.history with
      | none => none
      | some none => some [HwEvent.display (Screen.historico st.history.count none)]
      | some (some avg) =>
        if sprintf_fits (7 + ops.fmt_len 1 avg.1 + 1) &&
            sprintf_fits (7 + ops.fmt_len 1 avg.2 + 1) then
          some [HwEvent.display (Screen.historico st.history.count (some avg))]
        else none
    else none
  else some [HwEvent.display Screen.blank]

/-! ## `check_alarms` -/

/-- The body of `check_alarms`; `now` is the value read from
`to_ms_since_boot(get_absolute_time())`. -/
def check_alarms (ops : FloatOps) (now : Nat) (st : Core1State) : Core1State × List HwEvent :=
  let temp_alarm := ops.lt st.current_sensor_data.temperature st.config.temp_min ||
    ops.lt st.config.temp_max st.current_sensor_data.temperature
  let humid_alarm := ops.lt st.current_sensor_data.humidity st.config.humid_min ||
    ops.lt st.config.humid_max st.current_sensor_data.humidity
  let press_alarm := ops.lt st.current_sensor_data.pressure st.config.press_min ||
    ops.lt st.config.press_max st.current_sensor_data.pressure
  let st1 := { st with alarm_active := temp_alarm || humid_alarm || press_alarm }
  if st1.alarm_active then
    if 500 ≤ sub32 now st1.last_toggle then
      let st2 := { st1 with last_toggle := now, led_state := !st1.led_state }
      if st2.led_state then (st2, set_rgb_led 1 0 0 ++ buzzer_beep 100)
      else (st2, set_rgb_led 0 0 0)
    else (st1, [])
  else (st1, set_rgb_led 0 1 0)

/-- One call of `check_alarms` in a run of core 1 at time `tick.1`.  The statics
`led_state` and `last_toggle` are carried over from the previous call; every
other variable is whatever the rest of the program left there, given by
`tick.2`. -/
def alarm_tick (ops : FloatOps) (led_state : Bool) (last_toggle : Nat)
    (tick : Nat × Core1State) : Core1State × List HwEvent :=
  check_alarms ops tick.1 { tick.2 with led_state := led_state, last_toggle := last_toggle }

/-- What one call of `check_alarms` did. -/
structure TickRecord where
  before : Core1State
  after : Core1State
  now : Nat
  events : List HwEvent

/-- The calls of `check_alarms` over a sequence of ticks. -/
def alarm_trace (ops : FloatOps) : Bool → Nat → List (Nat × Core1State) → List TickRecord
  | _, _, [] => []
  | led_state, last_toggle, tick :: ticks =>
    let r := alarm_tick ops led_state last_toggle tick
    { before := { tick.2 with led_state := led_state, last_toggle := last_toggle },
      after := r.1, now := tick.1, events := r.2 }
      :: alarm_trace ops r.1.led_state r.1.last_toggle ticks

/-- The call changed the blink phase. -/
def TickRecord.toggled (r : TickRecord) : Bool := r.before.led_state != r.after.led_state

/-- Number of phase changes in a trace. -/
def toggle_count (rs : List TickRecord) : Nat := (rs.filter TickRecord.toggled).length

/-- Time of the latest phase change in a trace, `0` when there is none. -/
def last_toggle_time (rs : List TickRecord) : Nat :=
  ((rs.filter TickRecord.toggled).map TickRecord.now).getLastD 0

/-! ## `gpio_callback` and `handle_buttons` -/

/-- The body of `gpio_callback`; `now` is the value read from
`to_ms_since_boot(get_absolute_time())`. -/
def gpio_callback (gpio _events now : Nat) (st : Core1State) : Core1State :=
  if sub32 now st.last_button_time < DEBOUNCE_DELAY_MS then st
  else
    let st1 := { st with last_button_time := now }
    if gpio = BOTAO_A then { st1 with button_a_pressed := true } else st1

/-- The edge at time `now` on the button pin sets the pending flag when the
flag is clear beforehand. -/
def edge_accepted (now : Nat) (st : Core1State) : Bool :=
  (gpio_callback BOTAO_A 0 now { st with button_a_pressed := false }).button_a_pressed

/-- Number of accepted edges among button edges at the given times. -/
def accepted_count : Core1State → List Nat → Nat
  | _, [] => 0
  | st, now :: rest =>
    (if edge_accepted now st then 1 else 0) + accepted_count (gpio_callback BOTAO_A 0 now st) rest

def handle_buttons (ops : FloatOps) (st : Core1State) : Option (Core1State × List HwEvent) :=
  if st.button_a_pressed then
    let st1 := { st with button_a_pressed := false,
                         current_page := (st.current_page + 1).tmod 3 }
    match update_display ops st1 with
    | some ev => some (st1, buzzer_beep 50 ++ ev)
    | none => none
  else some (st, [])

inductive RecvOutcome
  | no_data
  | received
  | framing_error (marker : Nat)
deriving DecidableEq

/-- Lines 269-313: the FIFO part of one loop iteration.  `st.fifo` holds the
queued words, oldest first.  `none`: a `multicore_fifo_pop_blocking` inside the
frame finds the FIFO empty and waits for the producer, or `add_to_history`
writes out of bounds. -/
def core1_receive (ops : FloatOps) (st : Core1State) : Option (Core1State × RecvOutcome) :=
  match st.fifo with
  | [] => some (st, RecvOutcome.no_data)
  | marker :: rest =>
    if marker = MARKER then
      if num_words ≤ rest.length then
        let d := deserialize (rest.take num_words)
        let d1 : SensorData :=
          { d with temperature := ops.add d.temperature st.config.temp_offset,
                   humidity := ops.add d.humidity st.config.humid_offset,
                   pressure := ops.add d.pressure st.config.press_offset }
        match add_to_history st.history d1.temperature d1.humidity d1.pressure with
        | some h =>
          some ({ st with fifo := rest.drop num_words, current_sensor_data := d1, history := h,
                          data_received := true }, RecvOutcome.received)
        | none => none
      else none
    else some ({ st with fifo := [] }, RecvOutcome.framing_error marker)

/-- One iteration of the `while (1)` loop of `core1_interface_task`.  `now_alarm`
is the time read inside `check_alarms`, `now` the time read by the loop. -/
def core1_iteration (ops : FloatOps) (now_alarm now : Nat) (st : Core1State) :
    Option (Core1State × RecvOutcome × List HwEvent) :=
  match core1_receive ops st with
  | none => none
  | some (st1, res) =>
    match handle_buttons ops st1 with
    | none => none
    | some (st2, ev1) =>
      let r := if st2.data_received then check_alarms ops now_alarm st2 else (st2, [])
      if 500 ≤ sub32 now r.1.last_display_update ∧ r.1.data_received then
        let st4 := { r.1 with last_display_update := now }
        match update_display ops st4 with
        | some ev3 => some (st4, res, ev1 ++ r.2 ++ ev3)
        | none => none
      else some (r.1, res, ev1 ++ r.2)

/-! ## Theorems -/

theorem serialize_eq (s : SensorData) (h : s.wf) :
    serialize s = [s.temperature, s.humidity, s.pressure, s.altitude, s.timestamp] := by
  obtain ⟨h1, h2, h3, h4, h5⟩ := h
  simp [serialize, num_words, sizeof_SensorData, memcpy, memset0, SensorData.bytes, le_bytes,
    word_at, List.range_succ]
  refine ⟨?_, ?_, ?_, ?_, ?_⟩ <;> omega

theorem deserialize_eq (a b c d e : Nat) (ha : a < 2 ^ 32) (hb : b < 2 ^ 32) (hc : c < 2 ^ 32)
    (hd : d < 2 ^ 32) (he : e < 2 ^ 32) :
    deserialize [a, b, c, d, e] = ⟨a, b, c, d, e⟩ := by
  simp [deserialize, sizeof_SensorData, memcpy, memset0, SensorData.ofBytes, le_bytes,
    word_at]
  refine ⟨?_, ?_, ?_, ?_, ?_⟩ <;> omega

/-- C1: for every sample of 32-bit patterns, the five words built by the producer
decode on the consumer side to the same sample, field by field. -/
theorem C1_roundtrip (s : SensorData) (h : s.wf) :
    (serialize s).length = 5 ∧
    (deserialize (serialize s)).temperature = s.temperature ∧
    (deserialize (serialize s)).humidity = s.humidity ∧
    (deserialize (serialize s)).pressure = s.pressure ∧
    (deserialize (serialize s)).altitude = s.altitude ∧
    (deserialize (serialize s)).timestamp = s.timestamp := by
  have hs := serialize_eq s h
  obtain ⟨h1, h2, h3, h4, h5⟩ := h
  rw [hs, deserialize_eq _ _ _ _ _ h1 h2 h3 h4 h5]
  simp

theorem C1_roundtrip_witness :
    (⟨0x41B40000, 0x42340000, 0x447D4000, 0, 1000⟩ : SensorData).wf ∧
    (serialize ⟨0x41B40000, 0x42340000, 0x447D4000, 0, 1000⟩).length = 5 ∧
    (deserialize (serialize ⟨0x41B40000, 0x42340000, 0x447D4000, 0, 1000⟩)).temperature
      = 0x41B40000 ∧
    (deserialize (serialize ⟨0x41B40000, 0x42340000, 0x447D4000, 0, 1000⟩)).humidity
      = 0x42340000 ∧
    (deserialize (serialize ⟨0x41B40000, 0x42340000, 0x447D4000, 0, 1000⟩)).pressure
      = 0x447D4000 ∧
    (deserialize (serialize ⟨0x41B40000, 0x42340000, 0x447D4000, 0, 1000⟩)).altitude = 0 ∧
    (deserialize (serialize ⟨0x41B40000, 0x42340000, 0x447D4000, 0, 1000⟩)).timestamp = 1000 :=
  ⟨by decide, C1_roundtrip ⟨0x41B40000, 0x42340000, 0x447D4000, 0, 1000⟩ (by decide)⟩

set_option maxRecDepth 8000

/-! ### Helper lemmas -/

theorem sub32_of_le (a b : Nat) (ha : a < 2 ^ 32) (hb : b ≤ a) : sub32 a b = a - b := by
  unfold sub32
  omega

theorem avg_loop_eq (ops : FloatOps) (h : HistoricalData) (n : Nat)
    (ht : n ≤ h.temperature.length) (hu : n ≤ h.humidity.length) :
    avg_loop ops h n = some ((h.temperature.take n).foldl ops.add (ops.ofInt 0),
      (h.humidity.take n).foldl ops.add (ops.ofInt 0)) := by
  induction n with
  | zero => simp [avg_loop]
  | succ i ih =>
    have hi := ih (by omega) (by omega)
    have h1 : h.temperature[i]? = some h.temperature[i] := List.getElem?_eq_getElem (by omega)
    have h2 : h.humidity[i]? = some h.humidity[i] := List.getElem?_eq_getElem (by omega)
    have e1 : h.temperature.take (i + 1) = h.temperature.take i ++ [h.temperature[i]] := by
      rw [List.take_succ, h1]; rfl
    have e2 : h.humidity.take (i + 1) = h.humidity.take i ++ [h.humidity[i]] := by
      rw [List.take_succ, h2]; rfl
    simp only [avg_loop, hi, h1, h2, e1, e2, List.foldl_append, List.foldl_cons, List.foldl_nil]

theorem history_average_some (ops : FloatOps) (h : HistoricalData) (hw : h.wf) :
    ∃ avg, history_average ops h = some avg := by
  obtain ⟨h1, h2, _, _, _, h6, h7⟩ := hw
  unfold history_average
  split
  · rw [avg_loop_eq ops h _ (by omega) (by omega)]
    exact ⟨_, rfl⟩
  · exact ⟨_, rfl⟩

/-- The display depends on the page, the current sample, the configuration and
the history only. -/
theorem update_display_congr (ops : FloatOps) (st st1 : Core1State)
    (h1 : st.current_page = st1.current_page)
    (h2 : st.current_sensor_data = st1.current_sensor_data)
    (h3 : st.config = st1.config) (h4 : st.history = st1.history) :
    update_display ops st = update_display ops st1 := by
  unfold update_display
  rw [h1, h2, h3, h4]

/-! ### Alarm evaluation -/

/-- The value `check_alarms` assigns to `alarm_active`. -/
theorem check_alarms_alarm (ops : FloatOps) (now : Nat) (st : Core1State) :
    (check_alarms ops now st).1.alarm_active =
      ((ops.lt st.current_sensor_data.temperature st.config.temp_min ||
        ops.lt st.config.temp_max st.current_sensor_data.temperature) ||
       (ops.lt st.current_sensor_data.humidity st.config.humid_min ||
        ops.lt st.config.humid_max st.current_sensor_data.humidity) ||
       (ops.lt st.current_sensor_data.pressure st.config.press_min ||
        ops.lt st.config.press_max st.current_sensor_data.pressure)) := by
  unfold check_alarms
  simp only
  split
  · split
    · split <;> rfl
    · rfl
  · rfl

theorem check_alarms_inactive (ops : FloatOps) (now : Nat) (st : Core1State)
    (h : (check_alarms ops now st).1.alarm_active = false) :
    check_alarms ops now st = ({ st with alarm_active := false }, set_rgb_led 0 1 0) := by
  rw [check_alarms_alarm] at h
  unfold check_alarms
  simp only [h]
  rfl

theorem check_alarms_toggle (ops : FloatOps) (now : Nat) (st : Core1State)
    (h : (check_alarms ops now st).1.alarm_active = true) (ht : 500 ≤ sub32 now st.last_toggle) :
    check_alarms ops now st =
      ({ st with alarm_active := true, last_toggle := now, led_state := !st.led_state },
        if st.led_state then set_rgb_led 0 0 0 else set_rgb_led 1 0 0 ++ buzzer_beep 100) := by
  rw [check_alarms_alarm] at h
  unfold check_alarms
  simp only [h, if_true, ht]
  cases st.led_state <;> simp

theorem check_alarms_hold (ops : FloatOps) (now : Nat) (st : Core1State)
    (h : (check_alarms ops now st).1.alarm_active = true) (ht : sub32 now st.last_toggle < 500) :
    check_alarms ops now st = ({ st with alarm_active := true }, []) := by
  rw [check_alarms_alarm] at h
  unfold check_alarms
  simp only [h, if_true]
  rw [if_neg (by omega)]

/-- C4: after `check_alarms` the flag `alarm_active` is set exactly when one of
the six comparisons temperature < temp_min, temperature > temp_max,
humidity < humid_min, humidity > humid_max, pressure < press_min,
pressure > press_max holds, whatever the time and the blink state.  With the
default thresholds (temp_max = 35.0) and humidity and pressure inside their
ranges, temperature 36.0 raises the alarm and temperature 35.0 does not. -/
theorem C4_alarm_correct (ops : FloatOps) (now : Nat) (st : Core1State) :
    ((check_alarms ops now st).1.alarm_active = true ↔
      (ops.lt st.current_sensor_data.temperature st.config.temp_min = true ∨
       ops.lt st.config.temp_max st.current_sensor_data.temperature = true ∨
       ops.lt st.current_sensor_data.humidity st.config.humid_min = true ∨
       ops.lt st.config.humid_max st.current_sensor_data.humidity = true ∨
       ops.lt st.current_sensor_data.pressure st.config.press_min = true ∨
       ops.lt st.config.press_max st.current_sensor_data.pressure = true)) ∧
    (st.config = config →
      F32.lt st.current_sensor_data.humidity config.humid_min = false →
      F32.lt config.humid_max st.current_sensor_data.humidity = false →
      F32.lt st.current_sensor_data.pressure config.press_min = false →
      F32.lt config.press_max st.current_sensor_data.pressure = false →
      (st.current_sensor_data.temperature = 0x42100000 →
        (check_alarms F32.ieee now st).1.alarm_active = true) ∧
      (st.current_sensor_data.temperature = 0x420C0000 →
        (check_alarms F32.ieee now st).1.alarm_active = false)) := by
  have key := fun o : FloatOps => check_alarms_alarm o now st
  refine ⟨?_, ?_⟩
  · rw [key]
    simp only [Bool.or_eq_true]
    tauto
  · intro hc h1 h2 h3 h4
    rw [key, hc]
    have e1 : F32.ieee.lt = F32.lt := rfl
    rw [e1, h1, h2, h3, h4]
    refine ⟨?_, ?_⟩
    · intro ht
      rw [ht]
      decide
    · intro ht
      rw [ht]
      decide

theorem C4_alarm_correct_witness :
    (check_alarms F32.ieee 0
        { core1_init with current_sensor_data := ⟨0x42100000, 0x42340000, 0x447D4000, 0, 0⟩ }
      ).1.alarm_active = true := by
  have h := (C4_alarm_correct F32.ieee 0
    { core1_init with current_sensor_data := ⟨0x42100000, 0x42340000, 0x447D4000, 0, 0⟩ }).2
    rfl (by decide) (by decide) (by decide) (by decide)
  exact h.1 rfl

/-! ### Debounce -/

theorem gpio_callback_accept (st : Core1State) (ev now : Nat)
    (h : DEBOUNCE_DELAY_MS ≤ sub32 now st.last_button_time) :
    gpio_callback BOTAO_A ev now st =
      { st with last_button_time := now, button_a_pressed := true } := by
  unfold gpio_callback
  rw [if_neg (by omega)]
  simp

theorem gpio_callback_drop (st : Core1State) (gpio ev now : Nat)
    (h : sub32 now st.last_button_time < DEBOUNCE_DELAY_MS) :
    gpio_callback gpio ev now st = st := by
  unfold gpio_callback
  rw [if_pos h]

theorem edge_accepted_eq (st : Core1State) (now : Nat) :
    edge_accepted now st = !decide (sub32 now st.last_button_time < DEBOUNCE_DELAY_MS) := by
  unfold edge_accepted gpio_callback
  by_cases h : sub32 now st.last_button_time < DEBOUNCE_DELAY_MS <;> simp [h]

/-- C5 (amended): a button edge at time `now` is accepted (pending flag set,
`last_button_time := now`) when the `uint32_t` difference
`now - last_button_time` is at least 200 ms, and is dropped with the state
unchanged when it is below 200 ms.  After an accepted edge at `now`, an edge
50 ms later is dropped (one accepted edge in all) and an edge 250 ms later is
accepted (two in all). -/
theorem C5_debounce (st : Core1State) (ev now : Nat) :
    (DEBOUNCE_DELAY_MS ≤ sub32 now st.last_button_time →
      gpio_callback BOTAO_A ev now st =
        { st with last_button_time := now, button_a_pressed := true } ∧
      edge_accepted now st = true) ∧
    (sub32 now st.last_button_time < DEBOUNCE_DELAY_MS →
      gpio_callback BOTAO_A ev now st = st ∧ edge_accepted now st = false) ∧
    (DEBOUNCE_DELAY_MS ≤ sub32 now st.last_button_time → now + 250 < 2 ^ 32 →
      accepted_count st [now, now + 50] = 1 ∧ accepted_count st [now, now + 250] = 2) := by
  have hacc : DEBOUNCE_DELAY_MS ≤ sub32 now st.last_button_time →
      edge_accepted now st = true := by
    intro h
    rw [edge_accepted_eq]
    simpa using h
  refine ⟨?_, ?_, ?_⟩
  · intro h
    exact ⟨gpio_callback_accept st ev now h, hacc h⟩
  · intro h
    refine ⟨gpio_callback_drop st _ ev now h, ?_⟩
    rw [edge_accepted_eq]
    simpa using h
  · intro h hn
    have d50 : sub32 (now + 50) now = 50 := by unfold sub32; omega
    have d250 : sub32 (now + 250) now = 250 := by unfold sub32; omega
    refine ⟨?_, ?_⟩
    · have h2 : edge_accepted (now + 50)
          { st with last_button_time := now, button_a_pressed := true } = false := by
        rw [edge_accepted_eq]
        simp only [d50]
        decide
      simp only [accepted_count, hacc h, gpio_callback_accept st 0 now h, h2]
      decide
    · have h2 : edge_accepted (now + 250)
          { st with last_button_time := now, button_a_pressed := true } = true := by
        rw [edge_accepted_eq]
        simp only [d250]
        decide
      simp only [accepted_count, hacc h, gpio_callback_accept st 0 now h, h2]
      decide

theorem C5_debounce_witness :
    accepted_count { core1_init with last_button_time := 3000 } [3200, 3250] = 1 ∧
    accepted_count { core1_init with last_button_time := 3000 } [3200, 3450] = 2 :=
  (C5_debounce { core1_init with last_button_time := 3000 } 0 3200).2.2 (by decide) (by decide)

/-- C5 as stated fails: with the last accepted edge at 3000 ms, an edge at
3200 ms is accepted although the elapsed 200 ms do not exceed the window; and
the two edges at 3100 ms and 3150 ms, 50 ms apart, yield no accepted edge. -/
theorem C5_debounce_counterexample :
    edge_accepted 3200 { core1_init with last_button_time := 3000 } = true ∧
    ¬ (DEBOUNCE_DELAY_MS < sub32 3200 3000) ∧
    accepted_count { core1_init with last_button_time := 3000 } [3100, 3150] = 0 := by
  decide

/-! ### Page cycling -/

/-- The redraw inside `handle_buttons` is part of the model: with the largest
finite float as pressure, the text of `"P: %.0fhPa"` takes 46 bytes, the
`sprintf` of the main page writes past `str`, and the call does not return
normally. -/
theorem handle_buttons_overflow :
    handle_buttons F32.ieee
      { core1_init with button_a_pressed := true, current_page := 2,
                        current_sensor_data := ⟨0, 0, 0x7F7FFFFF, 0, 0⟩ } = none := by
  decide

theorem add_to_history_some (h : HistoricalData) (t u p : Nat) (hw : h.wf) :
    ∃ h1, add_to_history h t u p = some h1 := by
  obtain ⟨_, _, _, h4, h5, _, _⟩ := hw
  unfold add_to_history
  rw [if_pos ⟨h4, h5⟩]
  exact ⟨_, rfl⟩

theorem core1_receive_frame (ops : FloatOps) (st : Core1State) (w0 w1 w2 w3 w4 : Nat)
    (rest : List Nat) (h0 : w0 < 2 ^ 32) (h1 : w1 < 2 ^ 32) (h2 : w2 < 2 ^ 32)
    (h3 : w3 < 2 ^ 32) (h4 : w4 < 2 ^ 32)
    (hf : st.fifo = MARKER :: w0 :: w1 :: w2 :: w3 :: w4 :: rest) (hw : st.history.wf) :
    ∃ h, add_to_history st.history (ops.add w0 st.config.temp_offset)
        (ops.add w1 st.config.humid_offset) (ops.add w2 st.config.press_offset) = some h ∧
      core1_receive ops st =
        some ({ st with
                fifo := rest,
                current_sensor_data := ⟨ops.add w0 st.config.temp_offset,
                  ops.add w1 st.config.humid_offset, ops.add w2 st.config.press_offset, w3, w4⟩,
                history := h,
                data_received := true }, RecvOutcome.received) := by
  obtain ⟨h, hh⟩ := add_to_history_some st.history (ops.add w0 st.config.temp_offset)
    (ops.add w1 st.config.humid_offset) (ops.add w2 st.config.press_offset) hw
  refine ⟨h, hh, ?_⟩
  have hd : deserialize (List.take num_words (w0 :: w1 :: w2 :: w3 :: w4 :: rest))
      = ⟨w0, w1, w2, w3, w4⟩ := by
    have : List.take num_words (w0 :: w1 :: w2 :: w3 :: w4 :: rest) = [w0, w1, w2, w3, w4] := by
      simp [num_words, sizeof_SensorData]
    rw [this, deserialize_eq _ _ _ _ _ h0 h1 h2 h3 h4]
  have hdrop : List.drop num_words (w0 :: w1 :: w2 :: w3 :: w4 :: rest) = rest := by
    simp [num_words, sizeof_SensorData]
  have hlen : num_words ≤ (w0 :: w1 :: w2 :: w3 :: w4 :: rest).length := by
    simp [num_words, sizeof_SensorData]
  unfold core1_receive
  rw [hf]
  simp only [if_pos, if_true, hlen, hd, hdrop, hh]

/-- C2 (amended): when the word at the head of the FIFO is not the marker, the
receive step reports a framing error and empties the FIFO, discarding every
word queued behind the bad marker; when the producer then enqueues a complete
frame for a sample, the next receive step delivers that sample (with the
calibration offsets added) and pushes it into the history. -/
theorem C2_resync (ops : FloatOps) (st : Core1State) (m : Nat) (queued : List Nat)
    (s : SensorData) (hm : m ≠ MARKER) (hf : st.fifo = m :: queued) (hs : s.wf)
    (hw : st.history.wf) :
    core1_receive ops st = some ({ st with fifo := [] }, RecvOutcome.framing_error m) ∧
    ∃ h, add_to_history st.history (ops.add s.temperature st.config.temp_offset)
        (ops.add s.humidity st.config.humid_offset)
        (ops.add s.pressure st.config.press_offset) = some h ∧
      core1_receive ops { st with fifo := core0_send [] s } =
        some ({ st with
                fifo := [],
                current_sensor_data := ⟨ops.add s.temperature st.config.temp_offset,
                  ops.add s.humidity st.config.humid_offset,
                  ops.add s.pressure st.config.press_offset, s.altitude, s.timestamp⟩,
                history := h,
                data_received := true }, RecvOutcome.received) := by
  refine ⟨?_, ?_⟩
  · unfold core1_receive
    rw [hf]
    simp only [if_neg hm]
  · have hser := serialize_eq s hs
    obtain ⟨h1, h2, h3, h4, h5⟩ := hs
    have hfifo : ({ st with fifo := core0_send [] s } : Core1State).fifo =
        MARKER :: s.temperature :: s.humidity :: s.pressure :: s.altitude :: s.timestamp :: [] := by
      simp [core0_send, hser]
    exact core1_receive_frame ops { st with fifo := core0_send [] s } _ _ _ _ _ [] h1 h2 h3 h4 h5
      hfifo hw

theorem C2_resync_witness :
    core1_receive F32.ieee { core1_init with fifo := [0, 7] } =
      some (core1_init, RecvOutcome.framing_error 0) ∧
    ∃ h, add_to_history history (F32.add 0x41B40000 0) (F32.add 0x42340000 0)
        (F32.add 0x447D4000 0) = some h ∧
      core1_receive F32.ieee
          { core1_init with fifo := core0_send [] ⟨0x41B40000, 0x42340000, 0x447D4000, 0, 1000⟩ } =
        some ({ core1_init with
                fifo := [],
                current_sensor_data := ⟨F32.add 0x41B40000 0, F32.add 0x42340000 0,
                  F32.add 0x447D4000 0, 0, 1000⟩,
                history := h,
                data_received := true }, RecvOutcome.received) :=
  C2_resync F32.ieee { core1_init with fifo := [0, 7] } 0 [7]
    ⟨0x41B40000, 0x42340000, 0x447D4000, 0, 1000⟩ (by decide) rfl (by decide) (by decide)

/-- C2 as stated fails: with the bad marker 0 and the complete valid frame for
the sample (22.5, 45.0, 1013.0, 0, 1000) all queued, the first receive step
reports the framing error and drains the frame too; the next receive step
finds the FIFO empty and delivers nothing. -/
theorem C2_resync_counterexample :
    core1_receive F32.ieee
        { core1_init with
          fifo := 0 :: core0_send [] ⟨0x41B40000, 0x42340000, 0x447D4000, 0, 1000⟩ } =
      some (core1_init, RecvOutcome.framing_error 0) ∧
    core1_receive F32.ieee core1_init = some (core1_init, RecvOutcome.no_data) := by
  decide

theorem core1_iteration_quiet (ops : FloatOps) (now_alarm now : Nat) (st st1 : Core1State)
    (res : RecvOutcome) (hr : core1_receive ops st = some (st1, res))
    (hb : st1.button_a_pressed = false) (hd : st1.data_received = true)
    (hdisp : (update_display ops st1).isSome = true)
    (ha : (check_alarms ops now_alarm st1).1.alarm_active = false) :
    ∃ st2 ev, core1_iteration ops now_alarm now st = some (st2, res, ev) ∧
      st2.history = st1.history ∧ st2.current_sensor_data = st1.current_sensor_data ∧
      st2.data_received = true ∧ st2.alarm_active = false := by
  have hh : handle_buttons ops st1 = some (st1, []) := by
    unfold handle_buttons
    simp [hb]
  obtain ⟨ev, hev⟩ := Option.isSome_iff_exists.mp hdisp
  have hc : update_display ops
      { st1 with alarm_active := false, last_display_update := now,
                 data_received := true } = some ev :=
    (update_display_congr ops _ st1 rfl rfl rfl rfl).trans hev
  unfold core1_iteration
  rw [hr]
  simp only [hh, hd, if_true]
  rw [check_alarms_inactive _ _ _ ha]
  simp only [hd, and_true]
  split
  · rw [hc]
    exact ⟨_, _, rfl, rfl, rfl, rfl, rfl⟩
  · exact ⟨_, _, rfl, rfl, rfl, rfl, rfl⟩

/-- C7: with a complete frame `[0xAAAAAAAA, w0, .., w4]` at the head of the FIFO,
one receive step sets the current sample to (w0 + temp_offset,
w1 + humid_offset, w2 + press_offset, w3, w4), pushes that corrected triple
into the history, sets `data_received` and consumes the six words.  From the
initial state (empty history, offsets 0, default thresholds), one loop
iteration on the frame of (22.5, 45.0, 1013.0, 0, 1000) leaves
`history.count = 1`, the current sample equal to the sent one, its triple in
slot 0 and the alarm inactive. -/
theorem C7_receive_step (ops : FloatOps) (st : Core1State) (w0 w1 w2 w3 w4 : Nat)
    (rest : List Nat) (h0 : w0 < 2 ^ 32) (h1 : w1 < 2 ^ 32) (h2 : w2 < 2 ^ 32)
    (h3 : w3 < 2 ^ 32) (h4 : w4 < 2 ^ 32)
    (hf : st.fifo = MARKER :: w0 :: w1 :: w2 :: w3 :: w4 :: rest) (hw : st.history.wf) :
    (∃ h, add_to_history st.history (ops.add w0 st.config.temp_offset)
        (ops.add w1 st.config.humid_offset) (ops.add w2 st.config.press_offset) = some h ∧
      core1_receive ops st =
        some ({ st with
                fifo := rest,
                current_sensor_data := ⟨ops.add w0 st.config.temp_offset,
                  ops.add w1 st.config.humid_offset, ops.add w2 st.config.press_offset, w3, w4⟩,
                history := h,
                data_received := true }, RecvOutcome.received)) ∧
    (∀ now_alarm now : Nat, ∃ st1 ev,
      core1_iteration F32.ieee now_alarm now
          { core1_init with
            fifo := core0_send [] ⟨0x41B40000, 0x42340000, 0x447D4000, 0, 1000⟩ } =
        some (st1, RecvOutcome.received, ev) ∧
      st1.history.count = 1 ∧
      st1.current_sensor_data = ⟨0x41B40000, 0x42340000, 0x447D4000, 0, 1000⟩ ∧
      st1.history.entry 0 = some (0x41B40000, 0x42340000, 0x447D4000) ∧
      st1.data_received = true ∧ st1.alarm_active = false) := by
  refine ⟨core1_receive_frame ops st w0 w1 w2 w3 w4 rest h0 h1 h2 h3 h4 hf hw, ?_⟩
  intro now_alarm now
  have hrecv : core1_receive F32.ieee
      { core1_init with
        fifo := core0_send [] ⟨0x41B40000, 0x42340000, 0x447D4000, 0, 1000⟩ } =
      some ({ core1_init with
              current_sensor_data := ⟨0x41B40000, 0x42340000, 0x447D4000, 0, 1000⟩,
              history :=
                { temperature := (List.replicate 50 0).set 0 0x41B40000,
                  humidity := (List.replicate 50 0).set 0 0x42340000,
                  pressure := (List.replicate 50 0).set 0 0x447D4000,
                  index := 1, count := 1 },
              data_received := true }, RecvOutcome.received) := by
    decide
  have hal : (check_alarms F32.ieee now_alarm
      { core1_init with
        current_sensor_data := ⟨0x41B40000, 0x42340000, 0x447D4000, 0, 1000⟩,
        history :=
          { temperature := (List.replicate 50 0).set 0 0x41B40000,
            humidity := (List.replicate 50 0).set 0 0x42340000,
            pressure := (List.replicate 50 0).set 0 0x447D4000,
            index := 1, count := 1 },
        data_received := true }).1.alarm_active = false := by
    rw [check_alarms_alarm]
    decide
  obtain ⟨st2, ev, h1, h2, h3, h4, h5⟩ :=
    core1_iteration_quiet F32.ieee now_alarm now _ _ _ hrecv rfl rfl (by decide) hal
  refine ⟨st2, ev, h1, ?_, ?_, ?_, h4, h5⟩
  · rw [h2]
  · rw [h3]
  · rw [HistoricalData.entry, h2]
    decide

theorem C7_receive_step_witness :
    ∃ h, add_to_history history (F32.add 0x41B40000 0) (F32.add 0x42340000 0)
        (F32.add 0x447D4000 0) = some h ∧
      core1_receive F32.ieee
          { core1_init with
            fifo := [MARKER, 0x41B40000, 0x42340000, 0x447D4000, 0, 1000, MARKER] } =
        some ({ core1_init with
                fifo := [MARKER],
                current_sensor_data := ⟨F32.add 0x41B40000 0, F32.add 0x42340000 0,
                  F32.add 0x447D4000 0, 0, 1000⟩,
                history := h,
                data_received := true }, RecvOutcome.received) :=
  (C7_receive_step F32.ieee
    { core1_init with fifo := [MARKER, 0x41B40000, 0x42340000, 0x447D4000, 0, 1000, MARKER] }
    0x41B40000 0x42340000 0x447D4000 0 1000 [MARKER] (by decide) (by decide) (by decide)
    (by decide) (by decide) rfl (by decide)).1

/-! ### The history ring buffer -/

theorem push_all_append (h : HistoricalData) (xs : List (Nat × Nat × Nat)) (x : Nat × Nat × Nat) :
    push_all h (xs ++ [x]) =
      (push_all h xs).bind (fun h1 => add_to_history h1 x.1 x.2.1 x.2.2) := by
  induction xs generalizing h with
  | nil =>
    simp only [List.nil_append, push_all, Option.some_bind]
    cases add_to_history h x.1 x.2.1 x.2.2 <;> rfl
  | cons y ys ih =>
    simp only [List.cons_append, push_all]
    cases add_to_history h y.1 y.2.1 y.2.2 with
    | none => rfl
    | some h1 => exact ih h1

/-- The state of the ring buffer after any sequence of pushes from the
zero-initialised `history`. -/
theorem push_all_inv (ps : List (Nat × Nat × Nat)) :
    ∃ h, push_all history ps = some h ∧
      h.temperature.length = 50 ∧ h.humidity.length = 50 ∧ h.pressure.length = 50 ∧
      h.index = ((ps.length % 50 : Nat) : Int) ∧ h.count = ((min ps.length 50 : Nat) : Int) ∧
      ∀ i x, ps[i]? = some x → ps.length ≤ i + 50 →
        h.temperature[i % 50]? = some x.1 ∧ h.humidity[i % 50]? = some x.2.1 ∧
          h.pressure[i % 50]? = some x.2.2 := by
  induction ps using List.reverseRecOn with
  | nil =>
    refine ⟨history, rfl, ?_, ?_, ?_, rfl, rfl, ?_⟩
    · simp [history, MAX_DATA_POINTS]
    · simp [history, MAX_DATA_POINTS]
    · simp [history, MAX_DATA_POINTS]
    · intro i x hx
      simp at hx
  | append_singleton xs x ih =>
    obtain ⟨h, hrun, ht, hu, hp, hidx, hcnt, hent⟩ := ih
    have hlt : xs.length % 50 < 50 := Nat.mod_lt _ (by decide)
    have hnat : h.index.toNat = xs.length % 50 := by rw [hidx]; rfl
    have hguard : 0 ≤ h.index ∧ h.index < (MAX_DATA_POINTS : Int) := by
      rw [hidx]
      simp only [MAX_DATA_POINTS]
      omega
    rw [push_all_append, hrun]
    simp only [Option.some_bind, add_to_history, if_pos hguard, hnat]
    refine ⟨_, rfl, ?_, ?_, ?_, ?_, ?_, ?_⟩
    · simp [ht]
    · simp [hu]
    · simp [hp]
    · simp only [MAX_DATA_POINTS, hidx, List.length_append, List.length_singleton]
      rw [Int.tmod_eq_emod (by omega) (by decide)]
      omega
    · simp only [MAX_DATA_POINTS, hcnt, List.length_append, List.length_singleton]
      split <;> omega
    · intro i y hy hle
      simp only [List.length_append, List.length_singleton] at hle
      by_cases hi : i < xs.length
      · rw [List.getElem?_append_left hi] at hy
        have hne : xs.length % 50 ≠ i % 50 := by omega
        simp only [List.getElem?_set_ne hne]
        exact hent i y hy (by omega)
      · have hlen : i < (xs ++ [x]).length := by
          obtain ⟨hh, _⟩ := List.getElem?_eq_some.mp hy
          exact hh
        simp only [List.length_append, List.length_singleton] at hlen
        have hieq : i = xs.length := by omega
        subst hieq
        rw [List.getElem?_append_right (le_refl _)] at hy
        simp only [Nat.sub_self, List.getElem?_cons_zero, Option.some.injEq] at hy
        subst hy
        refine ⟨List.getElem?_set_self (by omega), List.getElem?_set_self (by omega),
          List.getElem?_set_self (by omega)⟩

theorem entry_of_getElem? (h : HistoricalData) (s : Nat) (x : Nat × Nat × Nat)
    (hx : h.temperature[s]? = some x.1 ∧ h.humidity[s]? = some x.2.1 ∧
      h.pressure[s]? = some x.2.2) : h.entry s = some x := by
  unfold HistoricalData.entry
  rw [hx.1, hx.2.1, hx.2.2]

/-- C8: after `n` calls of `add_to_history` from the zero-initialised history
(every call succeeds, so every array write is in bounds), the write index lies
in `[0, 50)` and equals `n mod 50`, and the count equals `min n 50`. -/
theorem C8_history_invariant (ps : List (Nat × Nat × Nat)) :
    ∃ h, push_all history ps = some h ∧ 0 ≤ h.index ∧ h.index < (MAX_DATA_POINTS : Int) ∧
      h.index = ((ps.length % 50 : Nat) : Int) ∧ h.count = ((min ps.length 50 : Nat) : Int) := by
  obtain ⟨h, hrun, _, _, _, hidx, hcnt, _⟩ := push_all_inv ps
  refine ⟨h, hrun, ?_, ?_, hidx, hcnt⟩
  · omega
  · simp only [MAX_DATA_POINTS]; omega

/-- C3: after `50 + k` pushes (`k > 0`) from the zero-initialised history the
count is 50, the arrays have 50 slots, the `j`-th most recent push
(`1 ≤ j ≤ 50`) sits in slot `(index - j) mod 50`, every slot is one of these,
and each push number `m ≥ 50` replaced, in its slot `m mod 50`, the push
number `m - 50`, the oldest one then stored. -/
theorem C3_history_wraparound (ps : List (Nat × Nat × Nat)) (k : Nat) (hk : 0 < k)
    (hlen : ps.length = MAX_DATA_POINTS + k) :
    ∃ h, push_all history ps = some h ∧ h.count = (MAX_DATA_POINTS : Int) ∧
      h.temperature.length = 50 ∧ h.humidity.length = 50 ∧ h.pressure.length = 50 ∧
      (∀ j : Nat, 1 ≤ j → j ≤ 50 →
        h.entry ((h.index - (j : Int)) % 50).toNat = ps[ps.length - j]?) ∧
      (∀ s : Nat, s < 50 → ∃ j : Nat, 1 ≤ j ∧ j ≤ 50 ∧ ((h.index - (j : Int)) % 50).toNat = s) ∧
      (∀ m : Nat, 50 ≤ m → m < ps.length →
        ∃ h1 h2, push_all history (ps.take m) = some h1 ∧
          push_all history (ps.take (m + 1)) = some h2 ∧
          h1.index = ((m % 50 : Nat) : Int) ∧
          h1.entry (m % 50) = ps[m - 50]? ∧ h2.entry (m % 50) = ps[m]?) := by
  simp only [MAX_DATA_POINTS] at hlen
  obtain ⟨h, hrun, ht, hu, hp, hidx, hcnt, hent⟩ := push_all_inv ps
  refine ⟨h, hrun, ?_, ht, hu, hp, ?_, ?_, ?_⟩
  · simp only [MAX_DATA_POINTS, hcnt]; omega
  · intro j hj1 hj2
    have hi : ps.length - j < ps.length := by omega
    have hx : ps[ps.length - j]? = some ps[ps.length - j] := List.getElem?_eq_getElem hi
    have hs : ((h.index - (j : Int)) % 50).toNat = (ps.length - j) % 50 := by
      rw [hidx]; omega
    rw [hs, hx]
    exact entry_of_getElem? h _ _ (hent _ _ hx (by omega))
  · intro s hs
    refine ⟨(ps.length % 50 + 50 - s - 1) % 50 + 1, by omega, by omega, ?_⟩
    rw [hidx]
    omega
  · intro m hm1 hm2
    obtain ⟨h1, hrun1, _, _, _, hidx1, _, hent1⟩ := push_all_inv (ps.take m)
    obtain ⟨h2, hrun2, _, _, _, _, _, hent2⟩ := push_all_inv (ps.take (m + 1))
    have hl1 : (ps.take m).length = m := by rw [List.length_take]; omega
    have hl2 : (ps.take (m + 1)).length = m + 1 := by rw [List.length_take]; omega
    refine ⟨h1, h2, hrun1, hrun2, ?_, ?_, ?_⟩
    · rw [hidx1, hl1]
    · have hx : ps[m - 50]? = some ps[m - 50] := List.getElem?_eq_getElem (by omega)
      have hx1 : (ps.take m)[m - 50]? = some ps[m - 50] := by
        rw [List.getElem?_take, if_pos (by omega), hx]
      have hmod : (m - 50) % 50 = m % 50 := by omega
      rw [hx, ← hmod]
      exact entry_of_getElem? h1 _ _ (hent1 _ _ hx1 (by omega))
    · have hx : ps[m]? = some ps[m] := List.getElem?_eq_getElem hm2
      have hx2 : (ps.take (m + 1))[m]? = some ps[m] := by
        rw [List.getElem?_take, if_pos (by omega), hx]
      rw [hx]
      exact entry_of_getElem? h2 _ _ (hent2 _ _ hx2 (by omega))

theorem C3_history_wraparound_witness :
    ∃ h, push_all history ((List.range 51).map (fun i => (i, i + 100, i + 200))) = some h ∧
      h.count = (MAX_DATA_POINTS : Int) ∧
      h.temperature.length = 50 ∧ h.humidity.length = 50 ∧ h.pressure.length = 50 ∧
      (∀ j : Nat, 1 ≤ j → j ≤ 50 →
        h.entry ((h.index - (j : Int)) % 50).toNat =
          ((List.range 51).map (fun i => (i, i + 100, i + 200)))[
            ((List.range 51).map (fun i => (i, i + 100, i + 200))).length - j]?) ∧
      (∀ s : Nat, s < 50 → ∃ j : Nat, 1 ≤ j ∧ j ≤ 50 ∧ ((h.index - (j : Int)) % 50).toNat = s) ∧
      (∀ m : Nat, 50 ≤ m → m < ((List.range 51).map (fun i => (i, i + 100, i + 200))).length →
        ∃ h1 h2, push_all history
            (((List.range 51).map (fun i => (i, i + 100, i + 200))).take m) = some h1 ∧
          push_all history
            (((List.range 51).map (fun i => (i, i + 100, i + 200))).take (m + 1)) = some h2 ∧
          h1.index = ((m % 50 : Nat) : Int) ∧
          h1.entry (m % 50) = ((List.range 51).map (fun i => (i, i + 100, i + 200)))[m - 50]? ∧
          h2.entry (m % 50) = ((List.range 51).map (fun i => (i, i + 100, i + 200)))[m]?) :=
  C3_history_wraparound ((List.range 51).map (fun i => (i, i + 100, i + 200))) 1 (by decide)
    (by decide)

theorem take_eq_rotate (ps : List (Nat × Nat × Nat)) (l : List Nat) (f : Nat × Nat × Nat → Nat)
    (hent : ∀ i x, ps[i]? = some x → ps.length ≤ i + 50 → l[i % 50]? = some (f x)) :
    l.take (min ps.length 50) =
      ((ps.drop (ps.length - min ps.length 50)).map f).rotate
        (49 * (ps.length - min ps.length 50)) := by
  have hXlen : ((ps.drop (ps.length - min ps.length 50)).map f).length = min ps.length 50 := by
    rw [List.length_map, List.length_drop]; omega
  apply List.ext_getElem?
  intro s
  rw [List.getElem?_take]
  by_cases hs : s < min ps.length 50
  · rw [if_pos hs, List.getElem?_rotate (by rw [hXlen]; exact hs), hXlen, List.getElem?_map,
      List.getElem?_drop]
    by_cases hn : ps.length ≤ 50
    · have hc : min ps.length 50 = ps.length := by omega
      simp only [hc, Nat.sub_self, Nat.mul_zero, Nat.add_zero, Nat.zero_add]
      rw [hc] at hs
      rw [Nat.mod_eq_of_lt hs]
      have hx : ps[s]? = some ps[s] := List.getElem?_eq_getElem hs
      have := hent s _ hx (by omega)
      rw [Nat.mod_eq_of_lt (by omega)] at this
      rw [this, hx]
      rfl
    · have hc : min ps.length 50 = 50 := by omega
      simp only [hc]
      rw [hc] at hs
      have hi : ps.length - 50 + (s + 49 * (ps.length - 50)) % 50 < ps.length := by omega
      have hx : ps[ps.length - 50 + (s + 49 * (ps.length - 50)) % 50]? = some
          ps[ps.length - 50 + (s + 49 * (ps.length - 50)) % 50] := List.getElem?_eq_getElem hi
      have := hent _ _ hx (by omega)
      have hmod : (ps.length - 50 + (s + 49 * (ps.length - 50)) % 50) % 50 = s := by omega
      rw [hmod] at this
      rw [this, hx]
      rfl
  · rw [if_neg hs]
    symm
    apply List.getElem?_eq_none
    rw [List.length_rotate, hXlen]
    omega

/-- C10: after `n ≥ 1` pushes from the zero-initialised history the history page
computes both averages; each is the float sum, accumulated from 0 over slots
`0 .. count - 1` with `count = min n 50`, divided by `count`; the summed slots
are a rearrangement of the last `min n 50` pushed temperatures (humidities),
each taken once.  On the zero-initialised history (count 0) nothing is
computed. -/
theorem C10_history_average (ops : FloatOps) (ps : List (Nat × Nat × Nat))
    (hn : 1 ≤ ps.length) :
    ∃ h, push_all history ps = some h ∧ h.count = ((min ps.length 50 : Nat) : Int) ∧
      history_average ops h = some (some
        (ops.div ((h.temperature.take (min ps.length 50)).foldl ops.add (ops.ofInt 0))
            (ops.ofInt ((min ps.length 50 : Nat) : Int)),
         ops.div ((h.humidity.take (min ps.length 50)).foldl ops.add (ops.ofInt 0))
            (ops.ofInt ((min ps.length 50 : Nat) : Int)))) ∧
      (h.temperature.take (min ps.length 50)).Perm
        ((ps.drop (ps.length - min ps.length 50)).map (fun x => x.1)) ∧
      (h.humidity.take (min ps.length 50)).Perm
        ((ps.drop (ps.length - min ps.length 50)).map (fun x => x.2.1)) ∧
      history_average ops history = some none := by
  obtain ⟨h, hrun, ht, hu, _, _, hcnt, hent⟩ := push_all_inv ps
  refine ⟨h, hrun, hcnt, ?_, ?_, ?_, ?_⟩
  · have hpos : 0 < h.count := by rw [hcnt]; omega
    have htn : h.count.toNat = min ps.length 50 := by rw [hcnt]; rfl
    unfold history_average
    rw [if_pos hpos, htn, avg_loop_eq ops h _ (by omega) (by omega)]
    simp only [hcnt]
  · rw [take_eq_rotate ps h.temperature (fun x => x.1) (fun i x hx hle => (hent i x hx hle).1)]
    exact List.rotate_perm _ _
  · rw [take_eq_rotate ps h.humidity (fun x => x.2.1)
      (fun i x hx hle => (hent i x hx hle).2.1)]
    exact List.rotate_perm _ _
  · rfl

theorem C10_history_average_witness :
    ∃ h, push_all history [(0x41B40000, 0x42340000, 0x447D4000)] = some h ∧ h.count = 1 ∧
      history_average F32.ieee h = some (some (0x41B40000, 0x42340000)) := by
  obtain ⟨h, h1, h2, h3, h4, h5, _⟩ :=
    C10_history_average F32.ieee [(0x41B40000, 0x42340000, 0x447D4000)] (by decide)
  refine ⟨h, h1, h2, ?_⟩
  have e : h = { temperature := (List.replicate 50 0).set 0 0x41B40000,
                 humidity := (List.replicate 50 0).set 0 0x42340000,
                 pressure := (List.replicate 50 0).set 0 0x447D4000,
                 index := 1, count := 1 } := by
    have : push_all history [(0x41B40000, 0x42340000, 0x447D4000)] = some
        { temperature := (List.replicate 50 0).set 0 0x41B40000,
          humidity := (List.replicate 50 0).set 0 0x42340000,
          pressure := (List.replicate 50 0).set 0 0x447D4000,
          index := 1, count := 1 } := by decide
    rw [this] at h1
    exact (Option.some.inj h1).symm
  rw [h3, e]
  decide

/-! ### The blink state machine of `check_alarms` -/

theorem check_alarms_cases (ops : FloatOps) (now : Nat) (st : Core1State) (hn : now < 2 ^ 32)
    (hle : st.last_toggle ≤ now) :
    ((check_alarms ops now st).1.alarm_active = false ∧
      check_alarms ops now st = ({ st with alarm_active := false }, set_rgb_led 0 1 0)) ∨
    ((check_alarms ops now st).1.alarm_active = true ∧ st.last_toggle + 500 ≤ now ∧
      check_alarms ops now st =
        ({ st with alarm_active := true, last_toggle := now, led_state := !st.led_state },
          if st.led_state then set_rgb_led 0 0 0
          else set_rgb_led 1 0 0 ++ buzzer_beep 100)) ∨
    ((check_alarms ops now st).1.alarm_active = true ∧ now < st.last_toggle + 500 ∧
      check_alarms ops now st = ({ st with alarm_active := true }, [])) := by
  have hsub := sub32_of_le now st.last_toggle hn hle
  cases ha : (check_alarms ops now st).1.alarm_active with
  | false => exact Or.inl ⟨rfl, check_alarms_inactive ops now st ha⟩
  | true =>
    by_cases ht : st.last_toggle + 500 ≤ now
    · exact Or.inr (Or.inl ⟨rfl, ht, check_alarms_toggle ops now st ha (by omega)⟩)
    · exact Or.inr (Or.inr ⟨rfl, by omega, check_alarms_hold ops now st ha (by omega)⟩)

theorem check_alarms_statics (ops : FloatOps) (now : Nat) (st : Core1State) (led : Bool)
    (T0 : Nat) (hn : now < 2 ^ 32) (hle : T0 ≤ now) (h1 : st.led_state = led)
    (h2 : st.last_toggle = T0) :
    ((check_alarms ops now st).1.led_state = led ∧ (check_alarms ops now st).1.last_toggle = T0) ∨
    ((check_alarms ops now st).1.led_state = (!led) ∧
      (check_alarms ops now st).1.last_toggle = now) := by
  subst h1 h2
  rcases check_alarms_cases ops now st hn hle with ⟨_, hc⟩ | ⟨_, _, hc⟩ | ⟨_, _, hc⟩
  · rw [hc]; exact Or.inl ⟨rfl, rfl⟩
  · rw [hc]; exact Or.inr ⟨rfl, rfl⟩
  · rw [hc]; exact Or.inl ⟨rfl, rfl⟩

theorem toggle_count_cons (r : TickRecord) (rs : List TickRecord) :
    toggle_count (r :: rs) = (if r.toggled = true then 1 else 0) + toggle_count rs := by
  unfold toggle_count
  rw [List.filter_cons]
  split
  · rw [List.length_cons]; omega
  · omega

theorem last_toggle_cons (r : TickRecord) (rs : List TickRecord) (T0 : Nat) :
    (((r :: rs).filter TickRecord.toggled).map TickRecord.now).getLastD T0 =
      ((rs.filter TickRecord.toggled).map TickRecord.now).getLastD
        (if r.toggled = true then r.now else T0) := by
  rw [List.filter_cons]
  split
  · rw [List.map_cons, List.getLastD_cons]
  · rfl

/-- Every record of a trace is one call of `check_alarms`, whose statics hold
the parity of the number of earlier phase changes and the time of the latest
one. -/
theorem alarm_trace_state (ops : FloatOps) (ticks : List (Nat × Core1State)) :
    ∀ (led : Bool) (T0 k0 : Nat), (led = true ↔ k0 % 2 = 1) →
      (ticks.map Prod.fst).Pairwise (fun a b => a ≤ b) →
      (∀ t ∈ ticks, t.1 < 2 ^ 32 ∧ T0 ≤ t.1) →
      ∀ (i : Nat) (r : TickRecord), (alarm_trace ops led T0 ticks)[i]? = some r →
        (r.after, r.events) = check_alarms ops r.now r.before ∧ r.now < 2 ^ 32 ∧
        r.before.last_toggle ≤ r.now ∧
        (r.before.led_state = true ↔
          (k0 + toggle_count ((alarm_trace ops led T0 ticks).take i)) % 2 = 1) ∧
        r.before.last_toggle =
          ((((alarm_trace ops led T0 ticks).take i).filter TickRecord.toggled).map
            TickRecord.now).getLastD T0 := by
  induction ticks with
  | nil =>
    intro led T0 k0 _ _ _ i r hr
    simp [alarm_trace] at hr
  | cons tick rest ih =>
    intro led T0 k0 hled hmono hbound i r hr
    have hb0 := hbound tick (List.mem_cons_self _ _)
    cases i with
    | zero =>
      simp only [alarm_trace, List.getElem?_cons_zero, Option.some.injEq] at hr
      subst hr
      refine ⟨rfl, hb0.1, hb0.2, ?_, ?_⟩
      · simpa [toggle_count] using hled
      · simp
    | succ j =>
      rw [List.map_cons, List.pairwise_cons] at hmono
      have hrest : ∀ t ∈ rest, t.1 < 2 ^ 32 ∧ tick.1 ≤ t.1 := fun t ht =>
        ⟨(hbound t (List.mem_cons_of_mem _ ht)).1, hmono.1 t.1 (List.mem_map_of_mem _ ht)⟩
      have hrestT : ∀ t ∈ rest, t.1 < 2 ^ 32 ∧ T0 ≤ t.1 := fun t ht =>
        hbound t (List.mem_cons_of_mem _ ht)
      have hst := check_alarms_statics ops tick.1
        { tick.2 with led_state := led, last_toggle := T0 } led T0 hb0.1 hb0.2 rfl rfl
      have hcons : alarm_trace ops led T0 (tick :: rest) =
          { before := { tick.2 with led_state := led, last_toggle := T0 },
            after := (check_alarms ops tick.1
              { tick.2 with led_state := led, last_toggle := T0 }).1,
            now := tick.1,
            events := (check_alarms ops tick.1
              { tick.2 with led_state := led, last_toggle := T0 }).2 } ::
          alarm_trace ops
            (check_alarms ops tick.1
              { tick.2 with led_state := led, last_toggle := T0 }).1.led_state
            (check_alarms ops tick.1
              { tick.2 with led_state := led, last_toggle := T0 }).1.last_toggle rest := rfl
      rw [hcons, List.getElem?_cons_succ] at hr
      rw [hcons, List.take_succ_cons, toggle_count_cons, last_toggle_cons]
      simp only [TickRecord.toggled]
      rcases hst with ⟨h1, h2⟩ | ⟨h1, h2⟩
      · simp only [h1, h2] at hr ⊢
        have := ih led T0 k0 hled hmono.2 hrestT j r hr
        simpa using this
      · simp only [h1, h2] at hr ⊢
        have hled1 : ((!led) = true ↔ (k0 + 1) % 2 = 1) := by
          cases led <;> simp at hled ⊢ <;> omega
        have := ih (!led) tick.1 (k0 + 1) hled1 hmono.2 hrest j r hr
        have hne : (led != !led) = true := by cases led <;> rfl
        simpa [hne, Nat.add_assoc] using this

/-- C9: in a run of `check_alarms` calls at non-decreasing 32-bit times, from
the initial statics (phase off, last toggle 0), every call satisfies: its
`last_toggle` is the time of the latest earlier phase change (0 if none); when
the alarm is inactive the LED is set to green (pin 13 low, pin 11 high, pin 12
low), the buzzer pin 21 is not driven, and phase and `last_toggle` are
unchanged; when the alarm is active the phase changes exactly when at least
500 ms have passed since `last_toggle`, the change sets `last_toggle` to now,
an odd-numbered change (an even number of earlier ones) sets the LED red (pin
13 high, pins 11 and 12 low) and pulses the buzzer pin 21 once for 100 ms, an
even-numbered change drives the three LED pins low without a pulse, and a
call without a change drives no pin and keeps `last_toggle`. -/
theorem C9_alarm_blink (ops : FloatOps) (ticks : List (Nat × Core1State))
    (hmono : (ticks.map Prod.fst).Pairwise (fun a b => a ≤ b))
    (hlt : ∀ t ∈ ticks, t.1 < 2 ^ 32) (i : Nat) (r : TickRecord)
    (hr : (alarm_trace ops false 0 ticks)[i]? = some r) :
    r.before.last_toggle = last_toggle_time ((alarm_trace ops false 0 ticks).take i) ∧
    (r.after.alarm_active = false →
      r.events = [HwEvent.gpio_put 13 0, HwEvent.gpio_put 11 1, HwEvent.gpio_put 12 0] ∧
      r.after.led_state = r.before.led_state ∧
      r.after.last_toggle = r.before.last_toggle) ∧
    (r.after.alarm_active = true →
      (r.toggled = true ↔ r.before.last_toggle + 500 ≤ r.now) ∧
      (r.toggled = true →
        r.after.last_toggle = r.now ∧
        (toggle_count ((alarm_trace ops false 0 ticks).take i) % 2 = 0 →
          r.after.led_state = true ∧
          r.events =
            [HwEvent.gpio_put 13 1, HwEvent.gpio_put 11 0, HwEvent.gpio_put 12 0,
              HwEvent.gpio_put 21 1, HwEvent.sleep_ms 100, HwEvent.gpio_put 21 0]) ∧
        (toggle_count ((alarm_trace ops false 0 ticks).take i) % 2 = 1 →
          r.after.led_state = false ∧
          r.events =
            [HwEvent.gpio_put 13 0, HwEvent.gpio_put 11 0, HwEvent.gpio_put 12 0])) ∧
      (r.toggled = false → r.events = [] ∧ r.after.last_toggle = r.before.last_toggle)) := by
  obtain ⟨hca, hn, hle, hled, hlast⟩ := alarm_trace_state ops ticks false 0 0 (by simp) hmono
    (fun t ht => ⟨hlt t ht, Nat.zero_le _⟩) i r hr
  rw [Nat.zero_add] at hled
  refine ⟨hlast, ?_⟩
  have halarm : r.after.alarm_active = (check_alarms ops r.now r.before).1.alarm_active := by
    rw [← hca]
  rcases check_alarms_cases ops r.now r.before hn hle with ⟨ha, hc⟩ | ⟨ha, ht, hc⟩ | ⟨ha, ht, hc⟩
  · have h1 : r.after = _ := congrArg Prod.fst (hca.trans hc)
    have h2 : r.events = _ := congrArg Prod.snd (hca.trans hc)
    rw [halarm, ha]
    refine ⟨fun _ => ⟨?_, by rw [h1], by rw [h1]⟩, fun h => ?_⟩
    · rw [h2]
      rfl
    · simp at h
  · have h1 : r.after = _ := congrArg Prod.fst (hca.trans hc)
    have h2 : r.events = _ := congrArg Prod.snd (hca.trans hc)
    rw [halarm, ha]
    have htog : r.toggled = true := by
      unfold TickRecord.toggled
      rw [h1]
      cases r.before.led_state <;> rfl
    refine ⟨fun h => by simp at h, fun _ => ⟨?_, ?_, ?_⟩⟩
    · exact ⟨fun _ => ht, fun _ => htog⟩
    · intro _
      refine ⟨by rw [h1], ?_, ?_⟩
      · intro hk
        have hb : r.before.led_state = false := by
          cases hb : r.before.led_state with
          | false => rfl
          | true => have := hled.mp hb; omega
        rw [h1, h2, hb]
        exact ⟨rfl, rfl⟩
      · intro hk
        have hb : r.before.led_state = true := hled.mpr hk
        rw [h1, h2, hb]
        exact ⟨rfl, rfl⟩
    · intro hf
      rw [htog] at hf
      simp at hf
  · have h1 : r.after = _ := congrArg Prod.fst (hca.trans hc)
    have h2 : r.events = _ := congrArg Prod.snd (hca.trans hc)
    rw [halarm, ha]
    have htog : r.toggled = false := by
      unfold TickRecord.toggled
      rw [h1]
      cases r.before.led_state <;> rfl
    refine ⟨fun h => by simp at h, fun _ => ⟨?_, ?_, ?_⟩⟩
    · rw [htog]
      constructor
      · intro h; simp at h
      · intro h; omega
    · intro hf
      rw [htog] at hf
      simp at hf
    · intro _
      exact ⟨h2, by rw [h1]⟩

theorem C9_alarm_blink_witness :
    ∃ r, (alarm_trace F32.ieee false 0
        [(600, { core1_init with current_sensor_data := ⟨0x42100000, 0x42340000, 0x447D4000, 0, 0⟩ }),
         (1200, { core1_init with
                  current_sensor_data := ⟨0x42100000, 0x42340000, 0x447D4000, 0, 0⟩ })])[1]?
        = some r ∧
      r.before.last_toggle = 600 ∧ r.after.last_toggle = 1200 ∧
      r.after.led_state = false ∧
      r.events = [HwEvent.gpio_put 13 0, HwEvent.gpio_put 11 0, HwEvent.gpio_put 12 0] := by
  refine ⟨_, rfl, ?_⟩
  have h := C9_alarm_blink F32.ieee
    [(600, { core1_init with current_sensor_data := ⟨0x42100000, 0x42340000, 0x447D4000, 0, 0⟩ }),
     (1200, { core1_init with current_sensor_data := ⟨0x42100000, 0x42340000, 0x447D4000, 0, 0⟩ })]
    (by decide) (by decide) 1 _ rfl
  have h2 := (h.2.2 (by decide)).2.1 (by decide)
  exact ⟨by decide, h2.1, (h2.2.2 (by decide)).1, (h2.2.2 (by decide)).2⟩

end DualCore
